import Mathlib

/-!
Verification of the rustshed library (Option/Result algebra, short-circuit
propagation protocol, adapter layer) against its specification.

The Python tagged unions `Option = Some | NullType` and `Result = Ok | Err`
from `rustshed/option_result.py` are embedded as the inductive types `Opt`
and `Res`.  Python exception-based control flow is embedded in the `Except`
monad over an explicit exception universe `PyErr`; everything a wrapper can
catch or re-raise is a constructor of that universe.
-/

/-- Embedding of the Python tagged union `Option[T] = Some[T] | NullType`
(`rustshed/option_result.py`).  `Null` is the singleton `NullType()` value. -/
inductive Opt (α : Type) where
  | Some (value : α)
  | Null
deriving DecidableEq, Repr

/-- Embedding of the Python tagged union `Result[T, E] = Ok[T] | Err[E]`
(`rustshed/option_result.py`). -/
inductive Res (α ε : Type) where
  | Ok (value : α)
  | Err (error : ε)
deriving DecidableEq, Repr

/-- `Some.map` / `NullType.map`: `Some(v).map(f) = Some(f(v))`;
`Null.map(f) = Null` (returns `self`). -/
def Opt.map (f : α → β) : Opt α → Opt β
  | .Some v => .Some (f v)
  | .Null => .Null

/-- `Some.and_then` / `NullType.and_then`: `Some(v).and_then(f) = f(v)`;
`Null.and_then(f) = Null` (returns `self`). -/
def Opt.and_then (f : α → Opt β) : Opt α → Opt β
  | .Some v => f v
  | .Null => .Null

/-- `Some.transpose` / `NullType.transpose`: `Some(Ok(v)) ↦ Ok(Some(v))`,
`Some(Err(e)) ↦ Err(e)`, `Null ↦ Ok(Null)`. -/
def Opt.transpose : Opt (Res α ε) → Res (Opt α) ε
  | .Some (.Ok v) => .Ok (.Some v)
  | .Some (.Err e) => .Err e
  | .Null => .Ok .Null

/-- `Ok.transpose` / `Err.transpose`: `Ok(Some(v)) ↦ Some(Ok(v))`,
`Ok(Null) ↦ Null`, `Err(e) ↦ Some(Err(e))` (`Err.transpose` returns
`Some(self)`). -/
def Res.transpose : Res (Opt α) ε → Opt (Res α ε)
  | .Ok (.Some v) => .Some (.Ok v)
  | .Ok .Null => .Null
  | .Err e => .Some (.Err e)

/-- Universe of Python exceptions relevant to the propagation protocol and
the adapter layer.  `OptionShortcutError` and `ResultShortcutError` embed the
two signal classes of `rustshed/option_result.py` (`ResultShortcutError`
carries the payload of the `Err` it was raised from); `exc n` stands for an
arbitrary instance of an `Exception` subclass (e.g. `ValueError`), `baseExc n`
for a `BaseException` that is not an `Exception` (e.g. `KeyboardInterrupt`). -/
inductive PyErr (ε : Type) where
  | OptionShortcutError
  | ResultShortcutError (e : ε)
  | exc (n : Nat)
  | baseExc (n : Nat)
deriving DecidableEq, Repr

/-- Whether a raised object is caught by Python's `except Exception`. -/
def PyErr.isException : PyErr ε → Bool
  | .baseExc _ => false
  | _ => true

/-- `Ok.Q` / `Err.Q` (`rustshed/option_result.py`): on `Ok(v)` the property
evaluates to `value`; on `Err(e)` it raises `ResultShortcutError(self)`. -/
def Res.Q : Res α ε → Except (PyErr ε) α
  | .Ok v => .ok v
  | .Err e => .error (.ResultShortcutError e)

/-- `Some.Q` / `NullType.Q` (`rustshed/option_result.py`): on `Some(v)` the
property evaluates to `value`; on `Null` it raises `OptionShortcutError`. -/
def Opt.Q : Opt α → Except (PyErr ε) α
  | .Some v => .ok v
  | .Null => .error .OptionShortcutError

/-- `result_shortcut` (`rustshed/result_shortcut.py`): calls `f`, returns its
result; `except ResultShortcutError as err: return err.error` converts the
signal back into the `Err` it carries; any other exception propagates. -/
def result_shortcut (f : σ → Except (PyErr ε) (Res α ε)) (x : σ) :
    Except (PyErr ε) (Res α ε) :=
  match f x with
  | .ok r => .ok r
  | .error (.ResultShortcutError e) => .ok (.Err e)
  | .error other => .error other

/-- `option_shortcut` (`rustshed/option_shortcut.py`): calls `f`, returns its
result; `except OptionShortcutError: return Null`; any other exception
propagates. -/
def option_shortcut (f : σ → Except (PyErr ε) (Opt α)) (x : σ) :
    Except (PyErr ε) (Opt α) :=
  match f x with
  | .ok r => .ok r
  | .error .OptionShortcutError => .ok .Null
  | .error other => .error other

/-- `to_option` (`rustshed/to_option.py`): `try: return Some(f(*args))`,
`except Exception: return Null`; exceptions outside `Exception` propagate. -/
def to_option (f : σ → Except (PyErr ε) α) (x : σ) :
    Except (PyErr ε) (Opt α) :=
  match f x with
  | .ok v => .ok (.Some v)
  | .error e => if e.isException then .ok .Null else .error e

/-- `_to_result_type.__call__` (`rustshed/to_result.py`):
`try: return Ok(f(*args))`, `except Exception as err: return Err(err)`;
exceptions outside `Exception` propagate. -/
def to_result (f : σ → Except (PyErr ε) α) (x : σ) :
    Except (PyErr ε) (Res α (PyErr ε)) :=
  match f x with
  | .ok v => .ok (.Ok v)
  | .error e => if e.isException then .ok (.Err e) else .error e

/-- `_to_result_type.__getitem__` (`rustshed/to_result.py`): subscripting
`to_result[E]` with an expected exception class (here represented by a
membership predicate on raised objects) just does `return self`: the
parameterization has no effect on the runtime wrapper. -/
def to_result_getitem (_cls : PyErr ε → Bool)
    (f : σ → Except (PyErr ε) α) (x : σ) :
    Except (PyErr ε) (Res α (PyErr ε)) :=
  to_result f x

/-- Modelled from the spec: the `Panic` class (`rustshed/panic.py` is not
among the sources; only its import and raise sites are).  Per the spec it is
a "programmer-facing fatal signal" that "carries a human-readable message".
It is modelled as carrying its Python constructor argument: a string
(`Panic(msg)`), nothing (`Panic()`), or a payload object (`Panic(value)`). -/
inductive PanicExc (α : Type) where
  | msg (s : String)
  | noArg
  | val (v : α)
deriving DecidableEq, Repr

/-- Modelled from the spec: the human-readable message a `Panic` carries, as
the repository's tests observe it via `str(panic.value)` — the
caller-supplied string, empty for no argument, or the `str` rendering
(`toStr`) of a carried payload object. -/
def PanicExc.message (toStr : α → String) : PanicExc α → String
  | .msg s => s
  | .noArg => ""
  | .val v => toStr v

/-- `Some.unwrap` / `NullType.unwrap`: returns `value`; on `Null` raises
`Panic()`. -/
def Opt.unwrap : Opt α → Except (PanicExc α) α
  | .Some v => .ok v
  | .Null => .error .noArg

/-- `Some.expect` / `NullType.expect`: returns `value`; on `Null` raises
`Panic(msg)`. -/
def Opt.expect (x : Opt α) (msg : String) : Except (PanicExc α) α :=
  match x with
  | .Some v => .ok v
  | .Null => .error (.msg msg)

/-- `Ok.unwrap` / `Err.unwrap`: returns `value`; on `Err` raises
`Panic(self.error)`. -/
def Res.unwrap : Res α ε → Except (PanicExc ε) α
  | .Ok v => .ok v
  | .Err e => .error (.val e)

/-- `Ok.expect` / `Err.expect`: returns `value`; on `Err` raises
`Panic(msg)`. -/
def Res.expect (x : Res α ε) (msg : String) : Except (PanicExc ε) α :=
  match x with
  | .Ok v => .ok v
  | .Err _ => .error (.msg msg)

/-- `Ok.unwrap_err` / `Err.unwrap_err`: returns `error`; on `Ok` raises
`Panic(self.value)`. -/
def Res.unwrap_err : Res α ε → Except (PanicExc α) ε
  | .Ok v => .error (.val v)
  | .Err e => .ok e

/-- `Ok.expect_err` / `Err.expect_err`: returns `error`; on `Ok` raises
`Panic(f"{msg}: {self.value}")`, where the f-string renders `self.value`
with Python `str`, embedded here as the explicit `toStr`. -/
def Res.expect_err (toStr : α → String) (x : Res α ε) (msg : String) :
    Except (PanicExc α) ε :=
  match x with
  | .Ok v => .error (.msg (msg ++ ": " ++ toStr v))
  | .Err e => .ok e

/-- `Some.map` / `NullType.map` with the callback as an effectful host
computation: `Some(v).map(f)` evaluates `f(self.value)` once and wraps it;
`Null.map(f)` returns `self` without touching `f`. -/
def Opt.mapM [Monad m] (f : α → m β) : Opt α → m (Opt β)
  | .Some v => do let u ← f v; pure (.Some u)
  | .Null => pure .Null

/-- `Some.and_then` / `NullType.and_then` with an effectful callback:
`Some(v).and_then(f)` is `f(self.value)`; `Null.and_then(f)` returns `self`. -/
def Opt.and_thenM [Monad m] (f : α → m (Opt β)) : Opt α → m (Opt β)
  | .Some v => f v
  | .Null => pure .Null

/-- `Some.filter` / `NullType.filter` with an effectful predicate:
`Some(v).filter(p)` evaluates `p(self.value)` once and keeps or drops the
value; `Null.filter(p)` returns `self`. -/
def Opt.filterM [Monad m] (p : α → m Bool) : Opt α → m (Opt α)
  | .Some v => do
      let b ← p v
      pure (if b then .Some v else .Null)
  | .Null => pure .Null

/-- `Some.is_some_and` / `NullType.is_some_and` with an effectful predicate:
`Some(v)` evaluates `p(self.value)`; `Null` returns `False` untouched. -/
def Opt.is_some_andM [Monad m] (p : α → m Bool) : Opt α → m Bool
  | .Some v => p v
  | .Null => pure false

/-- `Some.inspect` / `NullType.inspect` with an effectful observer:
`Some(v)` runs `f(self.value)` once and returns `self`; `Null` returns
`self` untouched. -/
def Opt.inspectM [Monad m] (f : α → m Unit) : Opt α → m (Opt α)
  | .Some v => do
      let _ ← f v
      pure (.Some v)
  | .Null => pure .Null

/-- `Some.unwrap_or_else` / `NullType.unwrap_or_else` with an effectful
thunk: `Some(v)` returns `value`; `Null` returns `f()`. -/
def Opt.unwrap_or_elseM [Monad m] (f : Unit → m α) : Opt α → m α
  | .Some v => pure v
  | .Null => f ()

/-- `Some.or_else` / `NullType.or_else` with an effectful thunk: `Some(v)`
returns `self`; `Null` returns `f()`. -/
def Opt.or_elseM [Monad m] (f : Unit → m (Opt α)) : Opt α → m (Opt α)
  | .Some v => pure (.Some v)
  | .Null => f ()

/-- `Some.map_or_else` / `NullType.map_or_else` with effectful callbacks:
`Some(v)` returns `f(self.value)` (the default thunk untouched); `Null`
returns `default()` (`f` untouched). -/
def Opt.map_or_elseM [Monad m] (default : Unit → m β) (f : α → m β) :
    Opt α → m β
  | .Some v => f v
  | .Null => default ()

/-- `Some.ok_or_else` / `NullType.ok_or_else` with an effectful error thunk:
`Some(v)` returns `Ok(value)` (thunk untouched); `Null` returns
`Err(err())`. -/
def Opt.ok_or_elseM [Monad m] (err : Unit → m ε) : Opt α → m (Res α ε)
  | .Some v => pure (.Ok v)
  | .Null => do
      let e ← err ()
      pure (.Err e)

/-- Instrumentation: run the pure callback `f` while counting one
invocation in the state. -/
def countCall (f : α → β) (a : α) : StateM Nat β := do
  modify Nat.succ
  pure (f a)

/-- Instrumentation: run the pure thunk `f` while counting one invocation
in the state. -/
def countThunk (f : Unit → β) (u : Unit) : StateM Nat β := do
  modify Nat.succ
  pure (f u)

/-- Dynamic universe of Python values populating the two unions: numbers,
strings, and the four variant wrappers `Some`, `Null` (`NullType()`), `Ok`
and `Err`. -/
inductive PyVal where
  | int (n : Int)
  | str (s : String)
  | someV (v : PyVal)
  | nullV
  | okV (v : PyVal)
  | errV (e : PyVal)
deriving DecidableEq, Repr

/-- Python `==` on this universe, per the frozen-dataclass `__eq__` of
`Some`, `NullType`, `Ok` and `Err`: values of the same class compare their
fields (`NullType` has none, so all its instances are equal); values of
different classes fall back to identity comparison, hence are unequal. -/
def pyEq : PyVal → PyVal → Bool
  | .int a, .int b => a == b
  | .str a, .str b => a == b
  | .someV a, .someV b => pyEq a b
  | .nullV, .nullV => true
  | .okV a, .okV b => pyEq a b
  | .errV a, .errV b => pyEq a b
  | _, _ => false

/-- C6: transpose is a round trip at the Option/Result boundary: the six
defining equations hold and transposing twice is the identity in both
directions. -/
theorem rustshed_C6_transpose_round_trip :
    (∀ (α ε : Type) (v : α),
      (Opt.Null : Opt (Res α ε)).transpose = Res.Ok Opt.Null ∧
      (Res.Ok (Opt.Null) : Res (Opt α) ε).transpose = Opt.Null ∧
      (Opt.Some (Res.Ok v) : Opt (Res α ε)).transpose = Res.Ok (Opt.Some v) ∧
      (Res.Ok (Opt.Some v) : Res (Opt α) ε).transpose = Opt.Some (Res.Ok v)) ∧
    (∀ (α ε : Type) (e : ε),
      (Opt.Some (Res.Err e) : Opt (Res α ε)).transpose = Res.Err e ∧
      (Res.Err e : Res (Opt α) ε).transpose = Opt.Some (Res.Err e)) ∧
    (∀ (α ε : Type) (x : Opt (Res α ε)), x.transpose.transpose = x) ∧
    (∀ (α ε : Type) (y : Res (Opt α) ε), y.transpose.transpose = y) := by
  refine ⟨fun α ε v => ⟨rfl, rfl, rfl, rfl⟩, fun α ε e => ⟨rfl, rfl⟩, ?_, ?_⟩
  · rintro α ε (⟨v | e⟩ | _) <;> rfl
  · rintro α ε (⟨v | _⟩ | e) <;> rfl

/-- C7: `Option.map` satisfies the functor laws: mapping the identity is the
identity, and mapping `f` then `g` equals mapping `g ∘ f`. -/
theorem rustshed_C7_map_functor_laws :
    (∀ (α : Type) (x : Opt α), x.map id = x) ∧
    (∀ (α β γ : Type) (x : Opt α) (f : α → β) (g : β → γ),
      (x.map f).map g = x.map (g ∘ f)) := by
  constructor
  · rintro α (v | _) <;> rfl
  · rintro α β γ (v | _) f g <;> rfl

/-- C8: `Option.and_then` is associative (the monad law):
`x.and_then(f).and_then(g) = x.and_then(fun v => f(v).and_then(g))`. -/
theorem rustshed_C8_and_then_assoc :
    ∀ (α β γ : Type) (x : Opt α) (f : α → Opt β) (g : β → Opt γ),
      (x.and_then f).and_then g = x.and_then (fun v => (f v).and_then g) := by
  rintro α β γ (v | _) f g <;> rfl

/-- C1: inside an opted-in body, `Q` on `Ok(v)`/`Some(v)` evaluates to `v`
and the rest of the body (`k`) continues — wrapped or not; `Q` on `Err(e)`
makes the `result_shortcut`-decorated call return exactly `Err(e)` with the
payload unchanged, and `Q` on `Null` makes the `option_shortcut`-decorated
call return `Null`, in both cases for every continuation `k`, so no later
part of the body is ever evaluated. -/
theorem rustshed_C1_shortcut_semantics :
    (∀ (α β ε : Type) (v : β) (k : β → Except (PyErr ε) (Res α ε)),
      (Res.Ok v : Res β ε).Q >>= k = k v) ∧
    (∀ (α β ε : Type) (v : β) (k : β → Except (PyErr ε) (Res α ε)),
      result_shortcut (fun _ : Unit => (Res.Ok v : Res β ε).Q >>= k) () =
        result_shortcut (fun _ : Unit => k v) ()) ∧
    (∀ (α β ε : Type) (e : ε) (k : β → Except (PyErr ε) (Res α ε)),
      result_shortcut (fun _ : Unit => (Res.Err e : Res β ε).Q >>= k) () =
        .ok (.Err e)) ∧
    (∀ (α β ε : Type) (v : β) (k : β → Except (PyErr ε) (Opt α)),
      (Opt.Some v).Q >>= k = k v) ∧
    (∀ (α β ε : Type) (k : β → Except (PyErr ε) (Opt α)),
      option_shortcut (fun _ : Unit => (Opt.Null : Opt β).Q >>= k) () =
        .ok .Null) :=
  ⟨fun _ _ _ _ _ => rfl, fun _ _ _ _ _ => rfl, fun _ _ _ _ _ => rfl,
   fun _ _ _ _ _ => rfl, fun _ _ _ _ => rfl⟩

/-- C4: `Q` applied to `Null` or `Err(e)` outside any opted-in function
raises `OptionShortcutError` / `ResultShortcutError`, which escapes every
continuation uncaught and is a different outcome from an ordinarily returned
`Null` or `Err` value. -/
theorem rustshed_C4_misuse_fails_loudly :
    (∀ (α β ε : Type) (k : α → Except (PyErr ε) (Opt β)),
      ((Opt.Null : Opt α).Q >>= k) = .error .OptionShortcutError) ∧
    (∀ (α β ε : Type) (e : ε) (k : α → Except (PyErr ε) (Res β ε)),
      ((Res.Err e : Res α ε).Q >>= k) = .error (.ResultShortcutError e)) ∧
    (∀ (β ε : Type) (r : Opt β),
      (Except.error .OptionShortcutError : Except (PyErr ε) (Opt β)) ≠
        .ok r) ∧
    (∀ (β ε : Type) (e : ε) (r : Res β ε),
      (Except.error (.ResultShortcutError e) :
        Except (PyErr ε) (Res β ε)) ≠ .ok r) :=
  ⟨fun _ _ _ _ => rfl, fun _ _ _ _ _ => rfl,
   fun _ _ _ h => Except.noConfusion h, fun _ _ _ _ h => Except.noConfusion h⟩

/-- C3 fails as stated: a frame wrapped by `to_option` does not let an
`OptionShortcutError` signal pass through — it catches it (it catches every
`Exception`) and converts it to `Null`; likewise `to_result` converts a
`ResultShortcutError` signal into an `Err` wrapping the signal object. -/
theorem rustshed_C3_counterexample :
    to_option
      (fun _ : Unit =>
        (Except.error .OptionShortcutError : Except (PyErr Unit) Nat)) () =
      .ok .Null ∧
    to_option
      (fun _ : Unit =>
        (Except.error .OptionShortcutError : Except (PyErr Unit) Nat)) () ≠
      .error .OptionShortcutError ∧
    to_result
      (fun _ : Unit =>
        (Except.error (.ResultShortcutError 0) :
          Except (PyErr Nat) Nat)) () =
      .ok (.Err (.ResultShortcutError 0)) ∧
    to_result
      (fun _ : Unit =>
        (Except.error (.ResultShortcutError 0) :
          Except (PyErr Nat) Nat)) () ≠
      .error (.ResultShortcutError 0) :=
  ⟨rfl, fun h => Except.noConfusion h, rfl, fun h => Except.noConfusion h⟩

/-- C3 amended: the signal is caught by the nearest enclosing opt-in wrapper
of the matching kind — a wrapper of the other kind passes it through
untouched, and with nested matching wrappers the inner one catches it — but
an intervening `to_option`/`to_result` frame does catch it (both catch every
`Exception`-class fault), converting it into `Null` / an `Err` carrying the
signal object. -/
theorem rustshed_C3_signal_catching :
    (∀ (α ε : Type),
      result_shortcut
        (fun _ : Unit =>
          (.error .OptionShortcutError : Except (PyErr ε) (Res α ε))) () =
        .error .OptionShortcutError) ∧
    (∀ (α ε : Type) (e : ε),
      option_shortcut
        (fun _ : Unit =>
          (.error (.ResultShortcutError e) : Except (PyErr ε) (Opt α))) () =
        .error (.ResultShortcutError e)) ∧
    (∀ (α β ε : Type) (e : ε) (k : β → Except (PyErr ε) (Res α ε)),
      result_shortcut
        (fun _ : Unit =>
          result_shortcut
            (fun _ : Unit => (Res.Err e : Res β ε).Q >>= k) ()) () =
        .ok (.Err e)) ∧
    (∀ (α ε : Type),
      to_option
        (fun _ : Unit =>
          (.error .OptionShortcutError : Except (PyErr ε) α)) () =
        .ok .Null) ∧
    (∀ (α ε : Type) (e : ε),
      to_result
        (fun _ : Unit =>
          (.error (.ResultShortcutError e) : Except (PyErr ε) α)) () =
        .ok (.Err (.ResultShortcutError e))) :=
  ⟨fun _ _ => rfl, fun _ _ _ => rfl, fun _ _ _ _ _ => rfl,
   fun _ _ => rfl, fun _ _ _ => rfl⟩

/-- C2 fails as stated: `to_result[E]` is a typing-only device — its
`__getitem__` returns `self`, so a fault outside the expected category `E`
(here: `exc 0`, with the category containing only `exc 1`) is still caught
and converted to `Err(exc 0)` instead of propagating uncaught. -/
theorem rustshed_C2_counterexample :
    to_result_getitem (fun e => e == PyErr.exc 1)
      (fun _ : Unit => (Except.error (PyErr.exc 0) : Except (PyErr Unit) Nat))
      () = .ok (.Err (.exc 0)) ∧
    to_result_getitem (fun e => e == PyErr.exc 1)
      (fun _ : Unit => (Except.error (PyErr.exc 0) : Except (PyErr Unit) Nat))
      () ≠ .error (.exc 0) :=
  ⟨rfl, fun h => Except.noConfusion h⟩

/-- C2 amended: `to_result(f)(x)` returns `Ok(f(x))` on normal return and
`Err(e)` for any raised fault in the general `Exception` category; the
parameterization `to_result[E]` does not change the runtime behavior at all
(it is static typing only), so faults outside `E` but inside `Exception` are
still converted — only faults outside `Exception` propagate uncaught. -/
theorem rustshed_C2_to_result_semantics :
    (∀ (σ α ε : Type) (f : σ → Except (PyErr ε) α) (x : σ) (v : α),
      f x = .ok v → to_result f x = .ok (.Ok v)) ∧
    (∀ (σ α ε : Type) (f : σ → Except (PyErr ε) α) (x : σ) (e : PyErr ε),
      f x = .error e → e.isException = true → to_result f x = .ok (.Err e)) ∧
    (∀ (σ α ε : Type) (f : σ → Except (PyErr ε) α) (x : σ) (e : PyErr ε),
      f x = .error e → e.isException = false → to_result f x = .error e) ∧
    (∀ (σ α ε : Type) (P : PyErr ε → Bool) (f : σ → Except (PyErr ε) α)
      (x : σ), to_result_getitem P f x = to_result f x) := by
  refine ⟨?_, ?_, ?_, fun _ _ _ _ _ _ => rfl⟩
  · intro σ α ε f x v h
    simp [to_result, h]
  · intro σ α ε f x e h he
    simp [to_result, h, he]
  · intro σ α ε f x e h he
    simp [to_result, h, he]

/-- Witness for C2's amended theorem at concrete inputs. -/
theorem rustshed_C2_to_result_semantics_witness :
    to_result
      (fun _ : Unit => (Except.ok 7 : Except (PyErr Unit) Nat)) () =
      .ok (.Ok 7) ∧
    to_result
      (fun _ : Unit => (Except.error (PyErr.exc 3) : Except (PyErr Unit) Nat))
      () = .ok (.Err (.exc 3)) ∧
    to_result
      (fun _ : Unit =>
        (Except.error (PyErr.baseExc 4) : Except (PyErr Unit) Nat)) () =
      .error (.baseExc 4) :=
  ⟨rustshed_C2_to_result_semantics.1 Unit Nat Unit _ () 7 rfl,
   rustshed_C2_to_result_semantics.2.1 Unit Nat Unit _ () (.exc 3) rfl rfl,
   rustshed_C2_to_result_semantics.2.2.1 Unit Nat Unit _ () (.baseExc 4)
     rfl rfl⟩

/-- C5: `unwrap`/`expect` return the payload on `Some`/`Ok` and raise a
`Panic` exactly on `Null`/`Err`; `expect(msg)` on the negative variant
panics with message exactly `msg` (in particular `Err("e").expect("msg")`);
`expect_err(msg)`/`unwrap_err` on `Ok(v)` panic with a message containing
the rendering of `v` (combined with `msg` for `expect_err`); `unwrap` on
`Err(e)` panics carrying `e`; and `Some(5).unwrap() == 5`. -/
theorem rustshed_C5_unwrap_expect_panics :
    (∀ (α : Type) (v : α) (msg : String),
      (Opt.Some v).unwrap = .ok v ∧ (Opt.Some v).expect msg = .ok v) ∧
    (∀ (α : Type) (msg : String) (toStr : α → String),
      (Opt.Null : Opt α).unwrap = .error .noArg ∧
      (Opt.Null : Opt α).expect msg = .error (.msg msg) ∧
      PanicExc.message toStr (.msg msg) = msg) ∧
    (∀ (α ε : Type) (v : α) (msg : String),
      (Res.Ok v : Res α ε).unwrap = .ok v ∧
      (Res.Ok v : Res α ε).expect msg = .ok v) ∧
    (∀ (α ε : Type) (e : ε) (msg : String) (toStr : ε → String),
      (Res.Err e : Res α ε).expect msg = .error (.msg msg) ∧
      PanicExc.message toStr (.msg msg) = msg ∧
      (Res.Err e : Res α ε).unwrap = .error (.val e)) ∧
    ((Res.Err "e" : Res Nat String).expect "msg" = .error (.msg "msg") ∧
      PanicExc.message id (PanicExc.msg "msg" : PanicExc String) = "msg" ∧
      (Opt.Some 5 : Opt Nat).unwrap = .ok 5) ∧
    (∀ (α ε : Type) (toStr : α → String) (v : α) (msg : String),
      Res.expect_err toStr (Res.Ok v : Res α ε) msg =
        .error (.msg (msg ++ ": " ++ toStr v)) ∧
      PanicExc.message toStr (PanicExc.msg (msg ++ ": " ++ toStr v)) =
        msg ++ ": " ++ toStr v ∧
      (∃ p, msg ++ ": " ++ toStr v = p ++ toStr v) ∧
      (Res.Ok v : Res α ε).unwrap_err = .error (.val v) ∧
      PanicExc.message toStr (PanicExc.val v) = toStr v) ∧
    (∀ (α ε : Type) (toStr : α → String) (e : ε) (msg : String),
      Res.expect_err toStr (Res.Err e : Res α ε) msg = .ok e ∧
      (Res.Err e : Res α ε).unwrap_err = .ok e) := by
  refine ⟨fun _ _ _ => ⟨rfl, rfl⟩, fun _ _ _ => ⟨rfl, rfl, rfl⟩,
    fun _ _ _ _ => ⟨rfl, rfl⟩, fun _ _ _ _ _ => ⟨rfl, rfl, rfl⟩,
    ⟨rfl, rfl, rfl⟩, ?_, fun _ _ _ _ _ => ⟨rfl, rfl⟩⟩
  intro α ε toStr v msg
  refine ⟨rfl, rfl, ⟨msg ++ ": ", ?_⟩, rfl, rfl⟩
  rw [String.append_assoc]

/-- C9: combinator callbacks run at most once and only when the variant
requires it.  On `Null`, the callbacks of `map`, `and_then`, `filter`,
`is_some_and` and `inspect` are never invoked — the result is `pure` in any
host monad, for any callback, even one that would fail; on `Some`, the lazy
thunks of `unwrap_or_else`, `or_else`, `map_or_else`'s default and
`ok_or_else` are never invoked; counting instrumentation shows that a needed
callback runs exactly once. -/
theorem rustshed_C9_callback_discipline :
    (∀ (m : Type → Type) [Monad m] (α β ε : Type)
      (f : α → m β) (g : α → m (Opt β)) (p : α → m Bool)
      (i : α → m Unit) (e : Unit → m ε),
      Opt.Null.mapM f = pure .Null ∧
      Opt.Null.and_thenM g = pure .Null ∧
      Opt.Null.filterM p = pure .Null ∧
      Opt.Null.is_some_andM p = pure false ∧
      Opt.Null.inspectM i = pure .Null ∧
      (∀ (v : α) (d : Unit → m α), (Opt.Some v).unwrap_or_elseM d = pure v) ∧
      (∀ (v : α) (d : Unit → m (Opt α)),
        (Opt.Some v).or_elseM d = pure (.Some v)) ∧
      (∀ (v : α) (d : Unit → m β), (Opt.Some v).map_or_elseM d f = f v) ∧
      (∀ (v : α), (Opt.Some v).ok_or_elseM e = pure (.Ok v))) ∧
    (∀ (α β ε : Type) (v : α) (f : α → β) (g : α → Opt β) (p : α → Bool)
      (da : Unit → α) (dopt : Unit → Opt α) (db : Unit → β)
      (de : Unit → ε),
      ((Opt.Some v).mapM (countCall f)).run 0 = (.Some (f v), 1) ∧
      ((Opt.Some v).and_thenM (countCall g)).run 0 = (g v, 1) ∧
      ((Opt.Some v).filterM (countCall p)).run 0 =
        (if p v then .Some v else .Null, 1) ∧
      ((Opt.Some v).is_some_andM (countCall p)).run 0 = (p v, 1) ∧
      ((Opt.Some v).inspectM (countCall (fun _ => ()))).run 0 =
        (.Some v, 1) ∧
      ((Opt.Null : Opt α).unwrap_or_elseM (countThunk da)).run 0 =
        (da (), 1) ∧
      ((Opt.Null : Opt α).or_elseM (countThunk dopt)).run 0 =
        (dopt (), 1) ∧
      ((Opt.Null : Opt α).map_or_elseM (countThunk db)
        (countCall (fun _ : α => db ()))).run 0 = (db (), 1) ∧
      ((Opt.Null : Opt α).ok_or_elseM (countThunk de)).run 0 =
        (.Err (de ()), 1)) :=
  ⟨fun _ _ _ _ _ _ _ _ _ _ =>
    ⟨rfl, rfl, rfl, rfl, rfl, fun _ _ => rfl, fun _ _ => rfl,
     fun _ _ => rfl, fun _ => rfl⟩,
   fun _ _ _ _ _ _ _ _ _ _ _ =>
    ⟨rfl, rfl, rfl, rfl, rfl, rfl, rfl, rfl, rfl⟩⟩

/-- Python equality on union values coincides with structural equality of
the embedding. -/
theorem pyEq_iff_eq : ∀ v w : PyVal, pyEq v w = true ↔ v = w := by
  intro v
  induction v with
  | int a => intro w; cases w <;> simp [pyEq]
  | str a => intro w; cases w <;> simp [pyEq]
  | someV a ih => intro w; cases w <;> simp [pyEq, ih]
  | nullV => intro w; cases w <;> simp [pyEq]
  | okV a ih => intro w; cases w <;> simp [pyEq, ih]
  | errV a ih => intro w; cases w <;> simp [pyEq, ih]

/-- C10: equality on union values is structural: `Some(v) == Some(w)` iff
`v == w` (likewise `Ok`/`Err`); all `NullType` values are equal; different
variants and different unions are never equal (`Some(v) != Null`,
`Ok(v) != Err(v)`, `Some(v) != Ok(v)`); and Python `==` coincides with the
structural equality under which the algebraic laws are stated. -/
theorem rustshed_C10_structural_equality :
    (∀ v w : PyVal, pyEq (.someV v) (.someV w) = true ↔ pyEq v w = true) ∧
    (∀ v w : PyVal, pyEq (.okV v) (.okV w) = true ↔ pyEq v w = true) ∧
    (∀ v w : PyVal, pyEq (.errV v) (.errV w) = true ↔ pyEq v w = true) ∧
    pyEq .nullV .nullV = true ∧
    (∀ v : PyVal,
      pyEq (.someV v) .nullV = false ∧ pyEq .nullV (.someV v) = false) ∧
    (∀ v : PyVal, pyEq (.okV v) (.errV v) = false) ∧
    (∀ v w : PyVal, pyEq (.someV v) (.okV w) = false) ∧
    (∀ v w : PyVal, pyEq v w = true ↔ v = w) := by
  refine ⟨fun v w => Iff.rfl, fun v w => Iff.rfl, fun v w => Iff.rfl, rfl,
    fun v => ⟨rfl, rfl⟩, fun v => rfl, fun v w => rfl, pyEq_iff_eq⟩
